import Mathlib

/-!
# Verification of the EDR-Proof pipeline orchestrator

Shallow embedding of the job manager (`tasks/job_manager.py`), the three
phase runners (`tasks/phase1_cdr.py`, `tasks/phase2_av.py`,
`tasks/phase3_edr.py`), the REST cancel endpoint (`app.py`) and the VM pool
(`tasks/vm_pool_manager.py`), together with theorems settling the spec
claims about them.

Conventions of the embedding:
* Python `datetime.now()` values are passed in as abstract `Nat` timestamps.
* Redis string fields that range over a closed set of statuses are embedded
  as inductive types with one constructor per string the code writes.
* Python float arithmetic on `progress_percentage` and the percentage
  summary fields is embedded over `Rat` (the claims under study never
  depend on float rounding).
* `json.dumps` on a result dict always yields a string that `json.loads`
  parses back to an equal dict; the Redis lists therefore store
  `StoreEntry.ok r` for an appended record `r`, while an entry written by
  anything else that does not parse is `StoreEntry.corrupt s`.
-/

namespace EDRProof

/-- Job status strings written by `job_manager.py`:
`pending`, `running`, `completed`, `failed`, `cancelled`. -/
inductive Status where
  | pending
  | running
  | completed
  | failed
  | cancelled
deriving DecidableEq, Repr

/-- The terminal status check of `JobManager.cancel_job`
(`job['status'] in ['completed', 'failed', 'cancelled']`). -/
def Status.isTerminal : Status → Bool
  | .completed => true
  | .failed => true
  | .cancelled => true
  | _ => false

/-- Phase-1 completion summary written by `on_cdr_batch_complete`. -/
structure Phase1Summary where
  total_tasks : Nat
  successful : Nat
  failed : Nat
deriving DecidableEq, Repr

/-- Phase-2 completion summary written by `on_av_batch_complete`. -/
structure Phase2Summary where
  total_scans : Nat
  successful : Nat
  pre_cdr_detections : Nat
  post_cdr_detections : Nat
  detection_reduction : Int
  detection_reduction_pct : Rat
deriving DecidableEq, Repr

/-- Per-EDR effectiveness block computed by `calculate_edr_effectiveness`. -/
structure EdrEffectiveness where
  tests_performed : Nat
  pre_cdr_alerts : Nat
  post_cdr_alerts : Nat
  alert_reduction : Int
  alert_reduction_pct : Rat
deriving DecidableEq, Repr

/-- Phase-3 completion summary written by `on_edr_batch_complete`. -/
structure Phase3Summary where
  total_tests : Nat
  successful : Nat
  pre_cdr_detections : Nat
  post_cdr_detections : Nat
  pre_cdr_total_alerts : Nat
  post_cdr_total_alerts : Nat
  alert_reduction : Int
  alert_reduction_percentage : Rat
  crowdstrike_effectiveness : EdrEffectiveness
  sentinelone_effectiveness : EdrEffectiveness
  sophos_effectiveness : EdrEffectiveness
deriving DecidableEq, Repr

/-- The Redis hash `job:<id>` as populated by `JobManager.create_job` and
patched by `JobManager.update_job`.  Fields that the code only writes later
(timestamps, summaries, the error message) are `Option`-typed: `none` means
the hash field is absent. -/
structure JobRecord where
  job_id : String
  container_name : String
  phases : List Nat
  priority : String
  status : Status
  created_at : Nat
  total_files : Nat
  processed_files : Nat
  failed_files : Nat
  current_phase : Option Nat
  progress_percentage : Rat
  started_at : Option Nat
  completed_at : Option Nat
  cancelled_at : Option Nat
  phase2_started_at : Option Nat
  phase3_started_at : Option Nat
  error : Option String
  phase1_completed : Bool
  phase2_completed : Bool
  phase3_completed : Bool
  phase1_summary : Option Phase1Summary
  phase2_summary : Option Phase2Summary
  phase3_summary : Option Phase3Summary
deriving DecidableEq, Repr

/-- A partial patch handed to `JobManager.update_job` (the `updates` dict):
`none` means the field is absent from the dict and left untouched by
`hset`. -/
structure JobPatch where
  status : Option Status
  total_files : Option Nat
  current_phase : Option Nat
  started_at : Option Nat
  completed_at : Option Nat
  cancelled_at : Option Nat
  phase2_started_at : Option Nat
  phase3_started_at : Option Nat
  error : Option String
  phase1_completed : Option Bool
  phase2_completed : Option Bool
  phase3_completed : Option Bool
  phase1_summary : Option Phase1Summary
  phase2_summary : Option Phase2Summary
  phase3_summary : Option Phase3Summary
deriving DecidableEq, Repr

/-- The empty patch (an `updates` dict with no keys). -/
def JobPatch.empty : JobPatch :=
  ⟨none, none, none, none, none, none, none, none, none, none, none, none,
   none, none, none⟩

/-- Field-wise effect of `hset(f"job:...", mapping=updates)`: present keys
overwrite, absent keys are untouched. -/
def applyPatch (j : JobRecord) (p : JobPatch) : JobRecord :=
  { j with
    status := p.status.getD j.status
    total_files := p.total_files.getD j.total_files
    current_phase := match p.current_phase with
      | some n => some n
      | none => j.current_phase
    started_at := match p.started_at with
      | some t => some t
      | none => j.started_at
    completed_at := match p.completed_at with
      | some t => some t
      | none => j.completed_at
    cancelled_at := match p.cancelled_at with
      | some t => some t
      | none => j.cancelled_at
    phase2_started_at := match p.phase2_started_at with
      | some t => some t
      | none => j.phase2_started_at
    phase3_started_at := match p.phase3_started_at with
      | some t => some t
      | none => j.phase3_started_at
    error := match p.error with
      | some e => some e
      | none => j.error
    phase1_completed := p.phase1_completed.getD j.phase1_completed
    phase2_completed := p.phase2_completed.getD j.phase2_completed
    phase3_completed := p.phase3_completed.getD j.phase3_completed
    phase1_summary := match p.phase1_summary with
      | some s => some s
      | none => j.phase1_summary
    phase2_summary := match p.phase2_summary with
      | some s => some s
      | none => j.phase2_summary
    phase3_summary := match p.phase3_summary with
      | some s => some s
      | none => j.phase3_summary }

/-- The progress recomputation at the tail of `update_job` and
`increment_processed`: when `total_files > 0`, write
`processed_files / total_files * 100` into `progress_percentage`. -/
def recomputeProgress (j : JobRecord) : JobRecord :=
  if j.total_files > 0 then
    { j with progress_percentage :=
        (j.processed_files : Rat) / (j.total_files : Rat) * 100 }
  else
    j

/-- `JobManager.update_job`: apply the patch via `hset`, then recompute the
progress percentage from the freshly read record.  Note: no terminal-status
check is performed. -/
def update_job (j : JobRecord) (p : JobPatch) : JobRecord :=
  recomputeProgress (applyPatch j p)

/-- `JobManager.increment_processed`: `hincrby processed_files 1`, then
recompute progress. -/
def increment_processed (j : JobRecord) : JobRecord :=
  recomputeProgress { j with processed_files := j.processed_files + 1 }

/-- `JobManager.increment_failed`: `hincrby failed_files 1`, then
`increment_processed` (a failure also counts as processed). -/
def increment_failed (j : JobRecord) : JobRecord :=
  increment_processed { j with failed_files := j.failed_files + 1 }

/-- The patch `cancel_job` sends through `update_job` on success. -/
def cancelPatch (now : Nat) : JobPatch :=
  { JobPatch.empty with status := some .cancelled, cancelled_at := some now }

/-- `JobManager.cancel_job`: `False` when the job is missing or already
terminal (record untouched); otherwise patch status to `cancelled` with a
`cancelled_at` stamp and return `True`. -/
def cancel_job (j : Option JobRecord) (now : Nat) : Bool × Option JobRecord :=
  match j with
  | none => (false, none)
  | some job =>
    if job.status.isTerminal then
      (false, some job)
    else
      (true, some (update_job job (cancelPatch now)))

/-- The `DELETE /api/jobs/job_id` handler in `app.py`: HTTP 404 when
`cancel_job` returns `False`, HTTP 200 otherwise. -/
def cancelJobEndpointCode (j : Option JobRecord) (now : Nat) :
    Nat × Option JobRecord :=
  let r := cancel_job j now
  (if r.1 then 200 else 404, r.2)

/-- An entry of a Redis phase-result list (`job:<id>:phase<k>`).
`add_file_result` pushes `json.dumps(result)`, which `json.loads` parses
back to an equal dict (`ok r`); an entry that does not parse as JSON is
`corrupt s`. -/
inductive StoreEntry (α : Type) where
  | ok (r : α)
  | corrupt (s : String)
deriving DecidableEq, Repr

/-- The phase tag strings `phase1` / `phase2` / `phase3` used as key
suffixes by `add_file_result` and `get_phase_results`. -/
inductive PhaseTag where
  | phase1
  | phase2
  | phase3
deriving DecidableEq, Repr

/-- The Redis keys of one job (`job:<id>`, `job:<id>:phase1..3`) plus the
shared `jobs:list` key, each paired with its TTL: `none` means the key has
no expiry (Redis `PERSIST` default), `some t` means the key was given a
`t`-second TTL.  `α` is the type of the per-phase result records. -/
structure JobStore (α : Type) where
  meta : Option JobRecord
  metaTTL : Option Nat
  phase1 : List (StoreEntry α)
  phase1TTL : Option Nat
  phase2 : List (StoreEntry α)
  phase2TTL : Option Nat
  phase3 : List (StoreEntry α)
  phase3TTL : Option Nat
  jobsList : List String
  jobsListTTL : Option Nat
deriving DecidableEq, Repr

/-- A store in which none of the job's keys exist yet. -/
def JobStore.empty (α : Type) : JobStore α :=
  ⟨none, none, [], none, [], none, [], none, [], none⟩

/-- The `job_data` dict assembled by `JobManager.create_job`. -/
def initialJobRecord (job_id container_name : String) (phases : List Nat)
    (priority : String) (now : Nat) : JobRecord :=
  { job_id := job_id
    container_name := container_name
    phases := phases
    priority := priority
    status := .pending
    created_at := now
    total_files := 0
    processed_files := 0
    failed_files := 0
    current_phase := none
    progress_percentage := 0
    started_at := none
    completed_at := none
    cancelled_at := none
    phase2_started_at := none
    phase3_started_at := none
    error := none
    phase1_completed := false
    phase2_completed := false
    phase3_completed := false
    phase1_summary := none
    phase2_summary := none
    phase3_summary := none }

/-- `JobManager.create_job`: `hset` the metadata hash, `lpush` the job id
onto `jobs:list`, then `expire` the metadata key for 604800 seconds
(7 days).  No other key receives an expiry here. -/
def create_job {α : Type} (s : JobStore α) (job_id container_name : String)
    (phases : List Nat) (priority : String) (now : Nat) : JobStore α :=
  { s with
    meta := some (initialJobRecord job_id container_name phases priority now)
    jobsList := job_id :: s.jobsList
    metaTTL := some 604800 }

/-- `JobManager.get_job`: `hgetall` of the metadata hash, `None` when the
key is missing. -/
def get_job {α : Type} (s : JobStore α) : Option JobRecord :=
  s.meta

/-- `JobManager.add_file_result`: `rpush json.dumps(result)` onto the
phase list.  No expiry is set on the list key. -/
def add_file_result {α : Type} (s : JobStore α) (phase : PhaseTag) (r : α) :
    JobStore α :=
  match phase with
  | .phase1 => { s with phase1 := s.phase1 ++ [StoreEntry.ok r] }
  | .phase2 => { s with phase2 := s.phase2 ++ [StoreEntry.ok r] }
  | .phase3 => { s with phase3 := s.phase3 ++ [StoreEntry.ok r] }

/-- Decode one stored list entry the way the `json.loads` / `except
JSONDecodeError` body of `get_phase_results` does: a parsing entry yields
its record, a non-parsing entry is logged and skipped. -/
def decodeEntry {α : Type} : StoreEntry α → Option α
  | .ok r => some r
  | .corrupt _ => none

/-- The raw entry list of a phase key (`lrange 0 -1`). -/
def phaseList {α : Type} (s : JobStore α) : PhaseTag → List (StoreEntry α)
  | .phase1 => s.phase1
  | .phase2 => s.phase2
  | .phase3 => s.phase3

/-- `JobManager.get_phase_results`: read the whole list, parse each entry,
silently skipping entries that fail to parse. -/
def get_phase_results {α : Type} (s : JobStore α) (phase : PhaseTag) :
    List α :=
  (phaseList s phase).filterMap decodeEntry

/-- Redis expiry semantics: after `elapsed` seconds, every key whose TTL
is `some t` with `t ≤ elapsed` is gone; keys without a TTL persist. -/
def expireAfter {α : Type} (s : JobStore α) (elapsed : Nat) : JobStore α :=
  { meta := match s.metaTTL with
      | some t => if t ≤ elapsed then none else s.meta
      | none => s.meta
    metaTTL := match s.metaTTL with
      | some t => if t ≤ elapsed then none else s.metaTTL
      | none => none
    phase1 := match s.phase1TTL with
      | some t => if t ≤ elapsed then [] else s.phase1
      | none => s.phase1
    phase1TTL := match s.phase1TTL with
      | some t => if t ≤ elapsed then none else s.phase1TTL
      | none => none
    phase2 := match s.phase2TTL with
      | some t => if t ≤ elapsed then [] else s.phase2
      | none => s.phase2
    phase2TTL := match s.phase2TTL with
      | some t => if t ≤ elapsed then none else s.phase2TTL
      | none => none
    phase3 := match s.phase3TTL with
      | some t => if t ≤ elapsed then [] else s.phase3
      | none => s.phase3
    phase3TTL := match s.phase3TTL with
      | some t => if t ≤ elapsed then none else s.phase3TTL
      | none => none
    jobsList := match s.jobsListTTL with
      | some t => if t ≤ elapsed then [] else s.jobsList
      | none => s.jobsList
    jobsListTTL := match s.jobsListTTL with
      | some t => if t ≤ elapsed then none else s.jobsListTTL
      | none => none }

/-! ## Phase 1 runner (`tasks/phase1_cdr.py`) -/

/-- The configured CDR engines (`cdr_engines` module dict keys). -/
def cdrEngineNames : List String := ["glasswall", "opswat", "votiro"]

/-- How a single `process_single_file_cdr` task settles: the CDR engine
succeeded, the CDR engine reported failure, or an exception was raised
(the `except` path). -/
inductive UnitOutcome where
  | success
  | failed
  | error
deriving DecidableEq, Repr

/-- The unit fan-out of `process_cdr_batch`: one task per
`(file_path, engine_name)` pair. -/
def phase1Units (file_paths : List String) : List (String × String) :=
  file_paths.flatMap (fun f => cdrEngineNames.map (fun e => (f, e)))

/-- The first `update_job` of `process_cdr_batch`. -/
def phase1StartPatch (now : Nat) : JobPatch :=
  { JobPatch.empty with
    status := some .running
    current_phase := some 1
    started_at := some now }

/-- Counter effect of one settled Phase-1 unit: the success and
CDR-reported-failure branches both call `increment_processed`; the
exception branch calls `increment_failed`. -/
def settleUnit (j : JobRecord) (o : UnitOutcome) : JobRecord :=
  match o with
  | .error => increment_failed j
  | _ => increment_processed j

/-- The job-record trace of one Phase-1 run: `process_cdr_batch` marks the
job running, stores `total_files = len(file_paths)` (the number of files,
not of file×engine units), then the dispatched units settle one by one. -/
def runPhase1Counters (j : JobRecord) (file_paths : List String)
    (outcomes : List UnitOutcome) (now : Nat) : JobRecord :=
  let j1 := update_job j (phase1StartPatch now)
  let j2 := update_job j1
    { JobPatch.empty with total_files := some file_paths.length }
  outcomes.foldl settleUnit j2

/-- The fields of a Phase-1 result dict that the Phase-2/3 planners read. -/
structure Phase1Result where
  file_path : String
  engine_name : String
  status : String
  sanitized_blob_path : Option String
deriving DecidableEq, Repr

/-! ## Phase 2 runner (`tasks/phase2_av.py`) -/

/-- The configured AV engines (`av_engines` module dict keys). -/
def avEngineNames : List String := ["opswat", "reversinglabs"]

/-- A `file_info` dict built by `scan_av_batch` (`file_path` carries
`result.get('sanitized_blob_path')` for post-CDR entries, which is absent
when the key was never written). -/
structure ScanFileInfo where
  file_path : Option String
  version : String
  cdr_engine : Option String
  original_file : Option String
deriving DecidableEq, Repr

/-- The successful Phase-1 results (`result.get('status') == 'success'`). -/
def successfulResults (rs : List Phase1Result) : List Phase1Result :=
  rs.filter (fun r => r.status == "success")

/-- The `original_files` set of `scan_av_batch`: the distinct `file_path`
values of successful Phase-1 results.  The Python `set` has unspecified
iteration order; the embedding keeps the extraction order deduplicated —
all claims about it concern membership and cardinality only. -/
def originalFiles (rs : List Phase1Result) : List String :=
  ((successfulResults rs).map (fun r => r.file_path)).dedup

/-- The `files_to_scan` plan of `scan_av_batch`: per original file one
pre-CDR entry plus one post-CDR entry for each successful Phase-1 result
of that file. -/
def filesToScan (rs : List Phase1Result) : List ScanFileInfo :=
  (originalFiles rs).flatMap (fun o =>
    ({ file_path := some o
       version := "pre-cdr"
       cdr_engine := none
       original_file := none } : ScanFileInfo) ::
    ((rs.filter (fun r => r.file_path == o && r.status == "success")).map
      (fun r =>
        { file_path := r.sanitized_blob_path
          version := "post-cdr"
          cdr_engine := some r.engine_name
          original_file := some o })))

/-- The dispatched Phase-2 tasks: every planned file crossed with every AV
engine. -/
def scanTasks (rs : List Phase1Result) : List (ScanFileInfo × String) :=
  (filesToScan rs).flatMap (fun fi => avEngineNames.map (fun a => (fi, a)))

/-! ## Phase 3 runner (`tasks/phase3_edr.py`) -/

/-- The fields of a Phase-3 result dict read by `on_edr_batch_complete`.
Error-path dicts never set `edr_detected` / `alert_count`; the callback
reads them with `r.get('edr_detected')` (falsy `None`) and
`r.get('alert_count', 0)`, embedded as `false` / `0`. -/
structure EdrResult where
  status : String
  version : String
  edr_solution_name : String
  edr_detected : Bool
  alert_count : Nat
deriving DecidableEq, Repr

/-- `calculate_edr_effectiveness` of `phase3_edr.py` (the Python
`round(·, 2)` applied to the percentage by the caller is display-only and
not modelled; no claim concerns it). -/
def calculate_edr_effectiveness (results : List EdrResult)
    (edr_solution : String) : EdrEffectiveness :=
  let edr_results := results.filter
    (fun r => r.edr_solution_name == edr_solution)
  let pre_cdr := edr_results.filter (fun r => r.version == "pre-cdr")
  let post_cdr := edr_results.filter (fun r => r.version == "post-cdr")
  let pre_alerts := (pre_cdr.map (fun r => r.alert_count)).sum
  let post_alerts := (post_cdr.map (fun r => r.alert_count)).sum
  { tests_performed := edr_results.length
    pre_cdr_alerts := pre_alerts
    post_cdr_alerts := post_alerts
    alert_reduction := (pre_alerts : Int) - (post_alerts : Int)
    alert_reduction_pct :=
      if pre_alerts > 0 then
        ((pre_alerts : Rat) - (post_alerts : Rat)) / (pre_alerts : Rat) * 100
      else 0 }

/-- The `phase3_summary` dict assembled by `on_edr_batch_complete`. -/
def mkPhase3Summary (results : List EdrResult) : Phase3Summary :=
  let pre_cdr_total_alerts := ((results.filter
    (fun r => r.version == "pre-cdr")).map (fun r => r.alert_count)).sum
  let post_cdr_total_alerts := ((results.filter
    (fun r => r.version == "post-cdr")).map (fun r => r.alert_count)).sum
  { total_tests := results.length
    successful := (results.filter (fun r => r.status == "success")).length
    pre_cdr_detections := (results.filter
      (fun r => r.version == "pre-cdr" && r.edr_detected)).length
    post_cdr_detections := (results.filter
      (fun r => r.version == "post-cdr" && r.edr_detected)).length
    pre_cdr_total_alerts := pre_cdr_total_alerts
    post_cdr_total_alerts := post_cdr_total_alerts
    alert_reduction :=
      (pre_cdr_total_alerts : Int) - (post_cdr_total_alerts : Int)
    alert_reduction_percentage :=
      if pre_cdr_total_alerts > 0 then
        ((pre_cdr_total_alerts : Rat) - (post_cdr_total_alerts : Rat))
          / (pre_cdr_total_alerts : Rat) * 100
      else 0
    crowdstrike_effectiveness :=
      calculate_edr_effectiveness results "crowdstrike"
    sentinelone_effectiveness :=
      calculate_edr_effectiveness results "sentinelone"
    sophos_effectiveness := calculate_edr_effectiveness results "sophos" }

/-- `on_edr_batch_complete` (normal path): one `update_job` call whose
patch sets `status = 'completed'`, stamps `completed_at`, and attaches the
Phase-3 summary — with no look at the job's current status. -/
def on_edr_batch_complete (j : JobRecord) (results : List EdrResult)
    (now : Nat) : JobRecord :=
  update_job j
    { JobPatch.empty with
      status := some .completed
      completed_at := some now
      phase3_completed := some true
      phase3_summary := some (mkPhase3Summary results) }

/-! ### Retry driver of `test_single_file_edr`

The task is declared with `max_retries=3`.  Each attempt appends exactly
one result dict to the `phase3` list: the success path appends a
`'success'` record, the exception path appends an `'error'` record and
then — while `self.request.retries < self.max_retries` — re-enqueues
itself via `self.retry(countdown=60)`. -/

/-- Celery `max_retries` of `test_single_file_edr`. -/
def max_retries : Nat := 3

/-- What one appended record of a Phase-3 unit looks like to the claim:
which attempt produced it and whether that attempt raised. -/
structure AttemptRecord where
  attempt : Nat
  status : String
deriving DecidableEq, Repr

/-- The record appended by attempt `i` (`raised = true` is the `except`
path). -/
def mkAttemptRecord (i : Nat) (raised : Bool) : AttemptRecord :=
  ⟨i, if raised then "error" else "success"⟩

/-- One Phase-3 unit under the celery retry driver, starting at attempt
index `i` with `fuel` attempts still permitted: returns the records
appended to the phase list and the countdown delays of the re-enqueues.
`raisesAt i` tells whether attempt `i` raises.  The driver is entered with
`fuel = max_retries + 1`, which the guard `i < max_retries` never
exhausts. -/
def runUnitAttempts (raisesAt : Nat → Bool) : Nat → Nat →
    List AttemptRecord × List Nat
  | 0, _ => ([], [])
  | fuel + 1, i =>
    let r := mkAttemptRecord i (raisesAt i)
    if raisesAt i && decide (i < max_retries) then
      let rest := runUnitAttempts raisesAt fuel (i + 1)
      (r :: rest.1, 60 :: rest.2)
    else
      ([r], [])

/-- A full Phase-3 unit: attempt 0 with the full retry budget. -/
def runUnit (raisesAt : Nat → Bool) : List AttemptRecord × List Nat :=
  runUnitAttempts raisesAt (max_retries + 1) 0

/-! ### The telemetry query step (step 6 of `test_single_file_edr`)

The module's import statements (`phase3_edr.py` lines 7–21) bind exactly
these names; evaluating a name not bound anywhere raises `NameError`.
The success path evaluates `execution_end + timedelta(seconds=60)`. -/

/-- Every name bound by the import statements of `phase3_edr.py`
(lines 7–21): `timedelta` is not among them. -/
def phase3ModuleImports : List String :=
  ["Task", "group", "chord", "List", "Dict", "Any", "logging", "datetime",
   "time", "celery_app", "JobManager", "VMPoolManager", "CrowdStrikeClient",
   "SentinelOneClient", "SophosClient", "FileExecutor", "AzureBlobManager",
   "ConfigManager"]

/-- An alert dict returned by `EDRConsole.get_alerts`. -/
structure Alert where
  severity : String
  threat_type : Option String
deriving DecidableEq, Repr

/-- The alert-derived fields of a successful Phase-3 result. -/
structure TelemetrySummary where
  alert_count : Nat
  high_severity_alerts : Nat
  threat_types : List String
  edr_detected : Bool
deriving DecidableEq, Repr

/-- The alert analysis of the success path (`alert_count`,
`high_severity_alerts`, the truthy deduplicated `threat_types`, and
`edr_detected = alert_count > 0`). -/
def summarizeAlerts (alerts : List Alert) : TelemetrySummary :=
  { alert_count := alerts.length
    high_severity_alerts :=
      (alerts.filter (fun a => a.severity == "high")).length
    threat_types :=
      ((alerts.filterMap (fun a => a.threat_type)).filter
        (fun t => !(t == ""))).dedup
    edr_detected := alerts.length > 0 }

/-- Step 6 of `test_single_file_edr`, evaluated in a module environment
`env`: with `timedelta` bound it queries
`get_alerts(vm_name, execution_start, execution_end + 60)` and summarizes
the returned alerts; without it, evaluating the `end_time` argument raises
`NameError` before any query is made. -/
def telemetryQueryStepIn (env : List String)
    (getAlerts : String → Nat → Nat → List Alert) (vm_name : String)
    (execution_start execution_end : Nat) :
    Except String TelemetrySummary :=
  if env.contains "timedelta" then
    Except.ok
      (summarizeAlerts (getAlerts vm_name execution_start
        (execution_end + 60)))
  else
    Except.error "NameError: name timedelta is not defined"

/-- Step 6 as actually shipped: evaluated in the `phase3_edr.py` module
environment. -/
def telemetryQueryStep (getAlerts : String → Nat → Nat → List Alert)
    (vm_name : String) (execution_start execution_end : Nat) :
    Except String TelemetrySummary :=
  telemetryQueryStepIn phase3ModuleImports getAlerts vm_name
    execution_start execution_end

/-! ## VM pool (`tasks/vm_pool_manager.py`)

The pool keeps one `VMInfo` object per VM in `all_vms` and per-EDR FIFO
queues.  In Python the queues hold the very same `VMInfo` objects that
`all_vms` maps to, so a field written through either alias is seen through
both; the embedding therefore makes `all_vms` the single source of truth
and lets the queues hold VM names.  The background cleaning thread spawned
by `release_vm` is modelled synchronously as the combined effect of
`release_vm` plus `_clean_and_return_vm`; whether `_run_cleanup_script`
raises is the `cleanupOk` parameter.  Calls into the Azure backend are
recorded as events. -/

/-- The `VMInfo` dataclass (IP/timestamp bookkeeping fields that no claim
reads are kept abstractly as given strings). -/
structure VMInfo where
  vm_name : String
  resource_group : String
  edr_solution : String
  status : String
  use_count : Nat
  last_used_at : Option Nat
deriving DecidableEq, Repr

/-- Azure-backend calls made by the pool. -/
inductive PoolEvent where
  | deleteVM (vm_name : String)
  | provisionVM (vm_name : String) (edr_solution : String)
  | runCleanupScript (vm_name : String)
deriving DecidableEq, Repr

/-- Pool configuration (`config.get('max_vm_uses', 20)` and the Azure
resource group). -/
structure PoolConfig where
  max_vm_uses : Nat
  resource_group : String
deriving DecidableEq, Repr

/-- Pool state: the `all_vms` tracking map, the per-EDR FIFO queues (VM
names, head = next to be handed out), and the backend event log. -/
structure PoolState where
  all_vms : List (String × VMInfo)
  queues : List (String × List String)
  events : List PoolEvent
deriving DecidableEq, Repr

/-- Assoc-list read (`dict.get`). -/
def assocGet {β : Type} (l : List (String × β)) (k : String) : Option β :=
  (l.find? (fun p => p.1 == k)).map (fun p => p.2)

/-- Assoc-list write (`dict[k] = v`): overwrite in place, else append. -/
def assocSet {β : Type} (l : List (String × β)) (k : String) (v : β) :
    List (String × β) :=
  match l with
  | [] => [(k, v)]
  | (k', v') :: t =>
    if k' == k then (k, v) :: t else (k', v') :: assocSet t k v

/-- Assoc-list delete (`del dict[k]`). -/
def assocErase {β : Type} (l : List (String × β)) (k : String) :
    List (String × β) :=
  l.filter (fun p => !(p.1 == k))

/-- `pools[edr].put(vm)`: append the VM at the tail of the label's FIFO. -/
def enqueueVM (qs : List (String × List String)) (edr_solution : String)
    (vm_name : String) : List (String × List String) :=
  assocSet qs edr_solution ((assocGet qs edr_solution).getD [] ++ [vm_name])

/-- The fresh `VMInfo` that `_provision_vm` returns: `status='available'`,
`use_count=0`, no `last_used_at`. -/
def provisionVM (cfg : PoolConfig) (vm_name edr_solution : String) :
    VMInfo :=
  { vm_name := vm_name
    resource_group := cfg.resource_group
    edr_solution := edr_solution
    status := "available"
    use_count := 0
    last_used_at := none }

/-- The replacement name `_recycle_vm` builds:
`f"edr-test-EDR-TIME"` from the current epoch second. -/
def newVMName (edr_solution : String) (now : Nat) : String :=
  "edr-test-" ++ edr_solution ++ "-" ++ toString now

/-- `_recycle_vm` (backend calls succeeding): delete the old VM, provision
a replacement with a fresh name, swap the tracking entry, enqueue the
replacement. -/
def recycleVM (cfg : PoolConfig) (s : PoolState) (info : VMInfo)
    (now : Nat) : PoolState :=
  let name := newVMName info.edr_solution now
  let fresh := provisionVM cfg name info.edr_solution
  { all_vms := assocSet (assocErase s.all_vms info.vm_name) name fresh
    queues := enqueueVM s.queues info.edr_solution name
    events := s.events ++
      [.deleteVM info.vm_name, .provisionVM name info.edr_solution] }

/-- `_clean_and_return_vm`: run the cleanup script; on success mark the VM
`available` and re-enqueue it; on failure recycle it instead. -/
def cleanAndReturnVM (cfg : PoolConfig) (s : PoolState) (info : VMInfo)
    (cleanupOk : Bool) (now : Nat) : PoolState :=
  let s1 := { s with events := s.events ++ [.runCleanupScript info.vm_name] }
  if cleanupOk then
    { s1 with
      all_vms := assocSet s1.all_vms info.vm_name
        { info with status := "available" }
      queues := enqueueVM s1.queues info.edr_solution info.vm_name }
  else
    recycleVM cfg s1 info now

/-- `VMPoolManager.release_vm`: silently return when the VM is untracked;
recycle when `use_count >= max_vm_uses`; clean-and-return when `clean`;
otherwise re-enqueue directly as `available`. -/
def release_vm (cfg : PoolConfig) (s : PoolState) (vm_name : String)
    (clean : Bool) (cleanupOk : Bool) (now : Nat) : PoolState :=
  match assocGet s.all_vms vm_name with
  | none => s
  | some info =>
    if cfg.max_vm_uses ≤ info.use_count then
      recycleVM cfg s info now
    else if clean then
      let marked := { info with status := "cleaning" }
      cleanAndReturnVM cfg
        { s with all_vms := assocSet s.all_vms vm_name marked } marked
        cleanupOk now
    else
      { s with
        all_vms := assocSet s.all_vms vm_name
          { info with status := "available" }
        queues := enqueueVM s.queues info.edr_solution vm_name }

/-- `VMPoolManager.acquire_vm`: block on the label's queue (an empty queue
models the timeout, raising `TimeoutError`), then mark the dequeued VM
`in_use`, stamp `last_used_at`, increment `use_count`, and hand it to the
caller. -/
def acquire_vm (s : PoolState) (edr_solution : String) (now : Nat) :
    Except String (VMInfo × PoolState) :=
  match (assocGet s.queues edr_solution).getD [] with
  | [] => Except.error "TimeoutError"
  | vm_name :: rest =>
    match assocGet s.all_vms vm_name with
    | none => Except.error "untracked"
    | some info =>
      let info' := { info with
        status := "in_use"
        last_used_at := some now
        use_count := info.use_count + 1 }
      Except.ok (info',
        { s with
          all_vms := assocSet s.all_vms vm_name info'
          queues := assocSet s.queues edr_solution rest })

/-! ## Helper lemmas -/

/-- Appending one result extends the decoded listing of that phase by that
result. -/
theorem get_phase_results_add {α : Type} (s : JobStore α) (phase : PhaseTag)
    (r : α) :
    get_phase_results (add_file_result s phase r) phase =
      get_phase_results s phase ++ [r] := by
  cases phase <;>
    simp [get_phase_results, add_file_result, phaseList, decodeEntry]

/-- Folding a list of appends extends the decoded listing by the whole
list, in order. -/
theorem get_phase_results_foldl {α : Type} (s : JobStore α)
    (phase : PhaseTag) (rs : List α) :
    get_phase_results
        (rs.foldl (fun st r => add_file_result st phase r) s) phase =
      get_phase_results s phase ++ rs := by
  induction rs generalizing s with
  | nil => simp
  | cons r t ih => simp [List.foldl_cons, ih, get_phase_results_add]

/-! ## C9 -/

/-- C9: for every job, phase tag and sequence of result records appended
via `add_file_result`, `get_phase_results` returns exactly those records
in append order, and a stored entry that fails to parse as JSON is
silently skipped (dropped from the listing) rather than raising. -/
theorem c9_phase_results_roundtrip_and_skip {α : Type} (init : JobStore α)
    (phase : PhaseTag) (rs : List α) (pre post : List (StoreEntry α))
    (bad : String) :
    get_phase_results
        (rs.foldl (fun st r => add_file_result st phase r) init) phase =
      get_phase_results init phase ++ rs
    ∧ (pre ++ StoreEntry.corrupt bad :: post).filterMap decodeEntry =
        pre.filterMap decodeEntry ++ post.filterMap decodeEntry := by
  refine ⟨get_phase_results_foldl init phase rs, ?_⟩
  simp [decodeEntry]

/-! ## C10 -/

/-- C10: `release_vm` on a VM whose name is absent from `all_vms` returns
with the pool state (tracking map, queues, backend event log) unchanged:
nothing is re-enqueued, cleaned or recycled and no error is raised. -/
theorem c10_untracked_release_is_noop (cfg : PoolConfig) (s : PoolState)
    (vm_name : String) (clean cleanupOk : Bool) (now : Nat)
    (h : assocGet s.all_vms vm_name = none) :
    release_vm cfg s vm_name clean cleanupOk now = s := by
  simp [release_vm, h]

/-- Witness for C10: a concrete pool tracking one crowdstrike VM, released
with an unknown name. -/
theorem c10_witness :
    release_vm ⟨20, "rg"⟩
      ⟨[("edr-test-crowdstrike-00-7", ⟨"edr-test-crowdstrike-00-7", "rg",
          "crowdstrike", "available", 2, some 5⟩)],
        [("crowdstrike", ["edr-test-crowdstrike-00-7"])], []⟩
      "edr-test-sophos-01-9" true true 42 =
      ⟨[("edr-test-crowdstrike-00-7", ⟨"edr-test-crowdstrike-00-7", "rg",
          "crowdstrike", "available", 2, some 5⟩)],
        [("crowdstrike", ["edr-test-crowdstrike-00-7"])], []⟩ :=
  c10_untracked_release_is_noop ⟨20, "rg"⟩ _ "edr-test-sophos-01-9"
    true true 42 (by decide)

/-! ## C6 -/

/-- C6 (code bug): the telemetry query of the Phase-3 success path never
runs — `timedelta` is not bound by any import of `phase3_edr.py`, so
evaluating `execution_end + timedelta(seconds=60)` raises `NameError`
before `get_alerts` is called, for every unit reaching step 6.  Had
`timedelta` been imported, the very same step would perform
`get_alerts(vm_name, execution_start, execution_end + 60)` and compute the
claimed summary from exactly the returned alerts. -/
theorem c6_telemetry_query_raises_name_error
    (getAlerts : String → Nat → Nat → List Alert) (vm_name : String)
    (execution_start execution_end : Nat) :
    telemetryQueryStep getAlerts vm_name execution_start execution_end =
      Except.error "NameError: name timedelta is not defined"
    ∧ phase3ModuleImports.contains "timedelta" = false
    ∧ telemetryQueryStepIn ("timedelta" :: phase3ModuleImports) getAlerts
        vm_name execution_start execution_end =
      Except.ok (summarizeAlerts
        (getAlerts vm_name execution_start (execution_end + 60))) := by
  refine ⟨?_, by decide, ?_⟩ <;>
    simp [telemetryQueryStep, telemetryQueryStepIn, phase3ModuleImports]

/-! ## C7 -/

/-- C7: `cancel_job` returns `true` and rewrites the job to `cancelled`
with a `cancelled_at` stamp exactly when the job exists and is not
terminal; on a missing or terminal job it returns `false` with the record
untouched; and the `DELETE /api/jobs/<id>` handler answers 404 exactly
when `cancel_job` returned `false` (200 otherwise). -/
theorem c7_cancel_job_characterization (job : JobRecord) (now : Nat) :
    cancel_job none now = (false, none)
    ∧ (cancelJobEndpointCode none now).1 = 404
    ∧ cancel_job (some job) now =
        (if job.status.isTerminal then (false, some job)
         else (true, some (update_job job (cancelPatch now))))
    ∧ (update_job job (cancelPatch now)).status = Status.cancelled
    ∧ (update_job job (cancelPatch now)).cancelled_at = some now
    ∧ (cancelJobEndpointCode (some job) now).1 =
        (if job.status.isTerminal then 404 else 200) := by
  have hs : (update_job job (cancelPatch now)).status = Status.cancelled := by
    simp only [update_job, recomputeProgress, applyPatch, cancelPatch,
      JobPatch.empty]
    split <;> rfl
  have ht : (update_job job (cancelPatch now)).cancelled_at = some now := by
    simp only [update_job, recomputeProgress, applyPatch, cancelPatch,
      JobPatch.empty]
    split <;> rfl
  refine ⟨rfl, rfl, ?_, hs, ht, ?_⟩ <;>
    cases h : job.status.isTerminal <;>
      simp [cancel_job, cancelJobEndpointCode, h]

/-! ## C8 -/

/-- `add_file_result` never touches any TTL field, nor the metadata or the
recent-jobs list. -/
theorem add_file_result_ttl {α : Type} (s : JobStore α) (phase : PhaseTag)
    (r : α) :
    (add_file_result s phase r).metaTTL = s.metaTTL
    ∧ (add_file_result s phase r).phase1TTL = s.phase1TTL
    ∧ (add_file_result s phase r).phase2TTL = s.phase2TTL
    ∧ (add_file_result s phase r).phase3TTL = s.phase3TTL
    ∧ (add_file_result s phase r).jobsListTTL = s.jobsListTTL
    ∧ (add_file_result s phase r).meta = s.meta
    ∧ (add_file_result s phase r).jobsList = s.jobsList := by
  cases phase <;> simp [add_file_result]

/-- TTL fields after a whole sequence of appends. -/
theorem foldl_add_file_result_ttl {α : Type} (s : JobStore α)
    (appends : List (PhaseTag × α)) :
    let f := appends.foldl (fun st pr => add_file_result st pr.1 pr.2) s
    f.metaTTL = s.metaTTL
    ∧ f.phase1TTL = s.phase1TTL
    ∧ f.phase2TTL = s.phase2TTL
    ∧ f.phase3TTL = s.phase3TTL
    ∧ f.jobsListTTL = s.jobsListTTL
    ∧ f.meta = s.meta
    ∧ f.jobsList = s.jobsList := by
  induction appends generalizing s with
  | nil => exact ⟨rfl, rfl, rfl, rfl, rfl, rfl, rfl⟩
  | cons p t ih =>
    have h := add_file_result_ttl s p.1 p.2
    have h' := ih (add_file_result s p.1 p.2)
    simp only [List.foldl_cons]
    exact ⟨h'.1.trans h.1, h'.2.1.trans h.2.1, h'.2.2.1.trans h.2.2.1,
      h'.2.2.2.1.trans h.2.2.2.1, h'.2.2.2.2.1.trans h.2.2.2.2.1,
      h'.2.2.2.2.2.1.trans h.2.2.2.2.2.1, h'.2.2.2.2.2.2.trans h.2.2.2.2.2.2⟩

/-- C8 counterexample: after `create_job` and one appended Phase-1 result,
the `job:<id>:phase1` key and the `jobs:list` key carry no TTL at all —
only the metadata key does — and once the 7-day TTL elapses the phase-1
result list is still fully readable while `get_job` already returns
`None`.  The claim that every persisted key carries the 604800-second TTL
is false at this input. -/
theorem c8_counterexample :
    let s := add_file_result
      (create_job (JobStore.empty Nat) "job-1" "test-files" [1] "normal" 0)
      .phase1 7
    ¬ (s.phase1TTL = some 604800 ∧ s.jobsListTTL = some 604800)
    ∧ s.metaTTL = some 604800
    ∧ s.phase1TTL = none
    ∧ s.jobsListTTL = none
    ∧ get_job (expireAfter s 604800) = none
    ∧ get_phase_results (expireAfter s 604800) .phase1 = [7]
    ∧ (expireAfter s 604800).jobsList = ["job-1"] := by
  refine ⟨?_, rfl, rfl, rfl, rfl, rfl, rfl⟩
  intro h
  exact Option.noConfusion h.1

/-- C8 as amended: of the keys a job writes, only the `job:<id>` metadata
record receives the 604800-second TTL (at creation time); the per-phase
result lists and the recent-jobs list are written without any TTL, so
once the TTL elapses `get_job` returns `None` while every per-phase
result list and the recent-jobs entry persist unchanged. -/
theorem c8_only_metadata_has_ttl {α : Type} (job_id container_name : String)
    (phases : List Nat) (priority : String) (now : Nat)
    (appends : List (PhaseTag × α)) (elapsed : Nat)
    (h : 604800 ≤ elapsed) :
    let s := appends.foldl (fun st pr => add_file_result st pr.1 pr.2)
      (create_job (JobStore.empty α) job_id container_name phases priority
        now)
    s.metaTTL = some 604800
    ∧ s.phase1TTL = none ∧ s.phase2TTL = none ∧ s.phase3TTL = none
    ∧ s.jobsListTTL = none
    ∧ get_job (expireAfter s elapsed) = none
    ∧ (∀ phase, get_phase_results (expireAfter s elapsed) phase =
        get_phase_results s phase)
    ∧ (expireAfter s elapsed).jobsList = s.jobsList := by
  intro s
  obtain ⟨h1, h2, h3, h4, h5, _, _⟩ := foldl_add_file_result_ttl
    (create_job (JobStore.empty α) job_id container_name phases priority
      now) appends
  have hm : s.metaTTL = some 604800 := h1
  have hp1 : s.phase1TTL = none := h2
  have hp2 : s.phase2TTL = none := h3
  have hp3 : s.phase3TTL = none := h4
  have hjl : s.jobsListTTL = none := h5
  refine ⟨hm, hp1, hp2, hp3, hjl, ?_, ?_, ?_⟩
  · simp [get_job, expireAfter, hm, h]
  · intro phase
    cases phase <;>
      simp [get_phase_results, phaseList, expireAfter, hp1, hp2, hp3]
  · simp [expireAfter, hjl]

/-- Witness for C8: the amended theorem applied at a concrete store (one
phase-1 append) exactly at the 7-day mark. -/
theorem c8_witness :
    let s := [((PhaseTag.phase1), (7 : Nat))].foldl
      (fun st pr => add_file_result st pr.1 pr.2)
      (create_job (JobStore.empty Nat) "job-1" "test-files" [1] "normal" 0)
    s.metaTTL = some 604800
    ∧ s.phase1TTL = none ∧ s.phase2TTL = none ∧ s.phase3TTL = none
    ∧ s.jobsListTTL = none
    ∧ get_job (expireAfter s 604800) = none
    ∧ (∀ phase, get_phase_results (expireAfter s 604800) phase =
        get_phase_results s phase)
    ∧ (expireAfter s 604800).jobsList = s.jobsList :=
  c8_only_metadata_has_ttl "job-1" "test-files" [1] "normal" 0
    [(PhaseTag.phase1, 7)] 604800 (by decide)

/-! ## C1 -/

/-- C1 counterexample: a job already in the terminal status `cancelled`
is moved to `completed` by the Phase-3 completion callback
(`on_edr_batch_complete` patches `status='completed'` through
`update_job`, which performs no terminal check), so terminal statuses are
not sinks and Cancelled → Completed is a possible transition. -/
theorem c1_counterexample :
    (on_edr_batch_complete
      { initialJobRecord "job-1" "test-files" [1, 2, 3] "normal" 0 with
        status := Status.cancelled } [] 5).status = Status.completed := by
  rfl

/-- C1 as amended: only `cancel_job` treats terminal statuses as sinks
(it refuses to transition a Completed/Failed/Cancelled job and leaves the
record untouched); `update_job` applies any status patch unconditionally
and the Phase-3 completion callback unconditionally sets `completed`, so
a terminal job's status can change again (in particular a Cancelled job
becomes Completed when the Phase-3 join fires). -/
theorem c1_terminal_not_sink_except_cancel (j : JobRecord) (p : JobPatch)
    (st : Status) (results : List EdrResult) (now : Nat)
    (h : j.status.isTerminal = true) :
    cancel_job (some j) now = (false, some j)
    ∧ (update_job j { p with status := some st }).status = st
    ∧ (on_edr_batch_complete j results now).status = Status.completed := by
  refine ⟨by simp [cancel_job, h], ?_, ?_⟩ <;>
    · simp only [on_edr_batch_complete, update_job, recomputeProgress,
        applyPatch, JobPatch.empty]
      split <;> rfl

/-- Witness for C1: the amended theorem at a concrete cancelled job, an
empty patch setting `running`, and an empty Phase-3 result list. -/
theorem c1_witness :
    let j := { initialJobRecord "job-1" "test-files" [1, 2, 3] "normal" 0
      with status := Status.cancelled }
    cancel_job (some j) 9 = (false, some j)
    ∧ (update_job j { JobPatch.empty with status := some Status.running
        }).status = Status.running
    ∧ (on_edr_batch_complete j [] 9).status = Status.completed :=
  c1_terminal_not_sink_except_cancel _ JobPatch.empty Status.running [] 9
    (by rfl)

/-! ## C3 -/

/-- C3 counterexample: a Phase-3 unit whose first attempt raises and whose
retry succeeds appends two records to the phase list (the `except` path
appends its `'error'` record *before* `self.retry` re-enqueues the task),
so a retried unit does not contribute exactly one record. -/
theorem c3_counterexample :
    (runUnit (fun i => i == 0)).1.length = 2
    ∧ ¬ ((runUnit (fun i => i == 0)).1.length = 1) := by
  exact ⟨rfl, by decide⟩

/-- C3 as amended: every *attempt* of a Phase-3 unit appends exactly one
record to the phase result list — the records are, in order, one per
attempt taken — so a unit that raised on `k` attempts before settling
contributes `k + 1` records (at least 1, at most `MaxRetries + 1 = 4`),
each retry re-enqueued with the fixed 60-second countdown; the unit stops
retrying either because an attempt succeeded or because the retry budget
is exhausted. -/
theorem c3_one_record_per_attempt (raisesAt : Nat → Bool) :
    (runUnit raisesAt).1 =
      (List.range (runUnit raisesAt).1.length).map
        (fun i => mkAttemptRecord i (raisesAt i))
    ∧ (runUnit raisesAt).2 =
        List.replicate ((runUnit raisesAt).1.length - 1) 60
    ∧ 1 ≤ (runUnit raisesAt).1.length
    ∧ (runUnit raisesAt).1.length ≤ max_retries + 1
    ∧ ((runUnit raisesAt).1.length = max_retries + 1
        ∨ raisesAt ((runUnit raisesAt).1.length - 1) = false) := by
  cases h0 : raisesAt 0 <;> cases h1 : raisesAt 1 <;>
    cases h2 : raisesAt 2 <;>
    simp [runUnit, runUnitAttempts, max_retries, mkAttemptRecord, h0, h1,
      h2, List.range_succ]

/-! ## C2 -/

/-- The progress recomputation touches no counter. -/
theorem recomputeProgress_counters (j : JobRecord) :
    (recomputeProgress j).processed_files = j.processed_files
    ∧ (recomputeProgress j).failed_files = j.failed_files
    ∧ (recomputeProgress j).total_files = j.total_files := by
  unfold recomputeProgress
  split <;> exact ⟨rfl, rfl, rfl⟩

/-- `update_job` leaves the two counters alone (no patch carries them) and
sets `total_files` exactly when the patch does. -/
theorem update_job_counters (j : JobRecord) (p : JobPatch) :
    (update_job j p).processed_files = j.processed_files
    ∧ (update_job j p).failed_files = j.failed_files
    ∧ (update_job j p).total_files = p.total_files.getD j.total_files := by
  unfold update_job recomputeProgress
  split <;> exact ⟨rfl, rfl, rfl⟩

/-- One settled Phase-1 unit bumps `processed_files` by exactly one,
bumps `failed_files` exactly on the exception path, and never touches
`total_files`. -/
theorem settleUnit_counters (j : JobRecord) (o : UnitOutcome) :
    (settleUnit j o).processed_files = j.processed_files + 1
    ∧ (settleUnit j o).failed_files =
        j.failed_files + (if o = .error then 1 else 0)
    ∧ (settleUnit j o).total_files = j.total_files := by
  cases o <;>
    · simp only [settleUnit, increment_failed, increment_processed,
        recomputeProgress]
      split <;> simp

/-- Counters across a whole fold of unit settlements. -/
theorem foldl_settleUnit_counters (outcomes : List UnitOutcome)
    (j : JobRecord) :
    (outcomes.foldl settleUnit j).processed_files =
      j.processed_files + outcomes.length
    ∧ (outcomes.foldl settleUnit j).failed_files =
        j.failed_files +
          (outcomes.filter (fun o => o == UnitOutcome.error)).length
    ∧ (outcomes.foldl settleUnit j).total_files = j.total_files := by
  induction outcomes generalizing j with
  | nil => exact ⟨rfl, by simp, rfl⟩
  | cons o t ih =>
    obtain ⟨hp, hf, ht⟩ := settleUnit_counters j o
    obtain ⟨ihp, ihf, iht⟩ := ih (settleUnit j o)
    refine ⟨?_, ?_, ?_⟩
    · simp only [List.foldl_cons, ihp, hp, List.length_cons]
      omega
    · simp only [List.foldl_cons, ihf, hf]
      cases o <;> simp [List.filter_cons] <;> omega
    · simp only [List.foldl_cons, iht, ht]

/-- The Phase-1 fan-out has three units (one per CDR engine) per file. -/
theorem phase1Units_length (file_paths : List String) :
    (phase1Units file_paths).length = 3 * file_paths.length := by
  induction file_paths with
  | nil => rfl
  | cons f t ih =>
    have h : phase1Units (f :: t) =
        cdrEngineNames.map (fun e => (f, e)) ++ phase1Units t := rfl
    rw [h, List.length_append, List.length_map, ih, List.length_cons]
    simp only [cdrEngineNames, List.length_cons, List.length_nil]
    omega

/-- C2 counterexample: one file crossed with the three CDR engines gives
`total_files = 1` (the code stores the number of *files*, not of
file×engine units) while the three settled units drive
`processed_files` to 3, so `Processed ≤ TotalUnits` fails for the
claim's per-(file × CDR-engine) unit count. -/
theorem c2_counterexample :
    (runPhase1Counters
      (initialJobRecord "job-1" "test-files" [1] "normal" 0) ["a.pdf"]
      [.success, .success, .success] 1).total_files = 1
    ∧ (runPhase1Counters
      (initialJobRecord "job-1" "test-files" [1] "normal" 0) ["a.pdf"]
      [.success, .success, .success] 1).processed_files = 3
    ∧ ¬ ((runPhase1Counters
      (initialJobRecord "job-1" "test-files" [1] "normal" 0) ["a.pdf"]
      [.success, .success, .success] 1).processed_files ≤
        (runPhase1Counters
          (initialJobRecord "job-1" "test-files" [1] "normal" 0) ["a.pdf"]
          [.success, .success, .success] 1).total_files) := by
  refine ⟨rfl, rfl, ?_⟩
  intro h
  rw [show (runPhase1Counters
      (initialJobRecord "job-1" "test-files" [1] "normal" 0) ["a.pdf"]
      [.success, .success, .success] 1).processed_files = 3 from rfl,
    show (runPhase1Counters
      (initialJobRecord "job-1" "test-files" [1] "normal" 0) ["a.pdf"]
      [.success, .success, .success] 1).total_files = 1 from rfl] at h
  omega

/-- C2 as amended: along a Phase-1 run the counters are monotonic and
satisfy `Failed ≤ Processed`, with `Processed` incremented exactly once
and `Failed` at most once per settled unit; but `total_files` is set once
at the start of Phase 1 to the *number of file paths* — not to the
per-(file_path × CDR_engine) unit count of the fan-out — so a fully
settled run ends with `Processed = 3 · TotalFiles`, which exceeds
`total_files` whenever any file was submitted. -/
theorem c2_counter_accounting (job_id container_name : String)
    (phases : List Nat) (priority : String) (t0 now : Nat)
    (files : List String) (outcomes : List UnitOutcome)
    (h : outcomes.length = (phase1Units files).length) :
    (runPhase1Counters (initialJobRecord job_id container_name phases
      priority t0) files outcomes now).total_files = files.length
    ∧ (phase1Units files).length = 3 * files.length
    ∧ (runPhase1Counters (initialJobRecord job_id container_name phases
        priority t0) files outcomes now).processed_files =
          3 * files.length
    ∧ (runPhase1Counters (initialJobRecord job_id container_name phases
        priority t0) files outcomes now).failed_files =
          (outcomes.filter (fun o => o == UnitOutcome.error)).length
    ∧ (runPhase1Counters (initialJobRecord job_id container_name phases
        priority t0) files outcomes now).failed_files ≤
        (runPhase1Counters (initialJobRecord job_id container_name phases
          priority t0) files outcomes now).processed_files
    ∧ (∀ (pre suf : List UnitOutcome) (j : JobRecord),
        (pre.foldl settleUnit j).processed_files ≤
          ((pre ++ suf).foldl settleUnit j).processed_files
        ∧ (pre.foldl settleUnit j).failed_files ≤
          ((pre ++ suf).foldl settleUnit j).failed_files) := by
  have hmono : ∀ (pre suf : List UnitOutcome) (j : JobRecord),
      (pre.foldl settleUnit j).processed_files ≤
        ((pre ++ suf).foldl settleUnit j).processed_files
      ∧ (pre.foldl settleUnit j).failed_files ≤
        ((pre ++ suf).foldl settleUnit j).failed_files := by
    intro pre suf j
    rw [List.foldl_append]
    obtain ⟨hp, hf, _⟩ := foldl_settleUnit_counters suf
      (pre.foldl settleUnit j)
    constructor
    · rw [hp]; omega
    · rw [hf]; omega
  unfold runPhase1Counters
  obtain ⟨hp1, hf1, ht1⟩ := update_job_counters
    (initialJobRecord job_id container_name phases priority t0)
    (phase1StartPatch now)
  obtain ⟨hp2, hf2, ht2⟩ := update_job_counters
    (update_job (initialJobRecord job_id container_name phases priority t0)
      (phase1StartPatch now))
    { JobPatch.empty with total_files := some files.length }
  obtain ⟨hp3, hf3, ht3⟩ := foldl_settleUnit_counters outcomes
    (update_job (update_job (initialJobRecord job_id container_name phases
      priority t0) (phase1StartPatch now))
      { JobPatch.empty with total_files := some files.length })
  have hlen := phase1Units_length files
  have hfle : (outcomes.filter (fun o => o == UnitOutcome.error)).length ≤
      outcomes.length := List.length_filter_le _ _
  refine ⟨?_, hlen, ?_, ?_, ?_, hmono⟩
  · rw [ht3, ht2]; rfl
  · rw [hp3, hp2, hp1, h, hlen]
    simp [initialJobRecord]
  · rw [hf3, hf2, hf1]
    simp [initialJobRecord]
  · rw [hf3, hp3, hf2, hf1, hp2, hp1]
    simp only [initialJobRecord]
    omega

/-- Witness for C2: the amended theorem at a two-file run whose six units
settle with one exception. -/
theorem c2_witness :
    (runPhase1Counters
      (initialJobRecord "job-1" "test-files" [1] "normal" 0)
      ["a.pdf", "b.docx"]
      [.success, .failed, .error, .success, .success, .success]
      1).total_files = 2
    ∧ (runPhase1Counters
        (initialJobRecord "job-1" "test-files" [1] "normal" 0)
        ["a.pdf", "b.docx"]
        [.success, .failed, .error, .success, .success, .success]
        1).processed_files = 6
    ∧ (runPhase1Counters
        (initialJobRecord "job-1" "test-files" [1] "normal" 0)
        ["a.pdf", "b.docx"]
        [.success, .failed, .error, .success, .success, .success]
        1).failed_files = 1 := by
  obtain ⟨h1, _, h3, h4, _, _⟩ := c2_counter_accounting "job-1"
    "test-files" [1] "normal" 0 1 ["a.pdf", "b.docx"]
    [.success, .failed, .error, .success, .success, .success] (by decide)
  refine ⟨?_, ?_, ?_⟩
  · rw [h1]
    rfl
  · rw [h3]
    rfl
  · rw [h4]
    rfl

/-! ## C4 -/

/-- Sum of a pointwise sum of `Nat`-valued maps. -/
theorem sum_map_add_nat {α : Type} (l : List α) (f g : α → Nat) :
    (l.map (fun x => f x + g x)).sum = (l.map f).sum + (l.map g).sum := by
  induction l with
  | nil => rfl
  | cons b t ih =>
    simp only [List.map_cons, List.sum_cons, ih]
    omega

/-- Summing an equality indicator over a list counts the occurrences. -/
theorem sum_map_indicator_eq_count {α : Type} [DecidableEq α] (l : List α)
    (a : α) :
    (l.map (fun x => if a == x then 1 else 0)).sum = l.count a := by
  induction l with
  | nil => rfl
  | cons b t ih =>
    simp only [List.map_cons, List.sum_cons, List.count_cons,
      beq_iff_eq] at ih ⊢
    rw [ih]
    by_cases hb : a = b
    · subst hb
      omega
    · rw [if_neg hb, if_neg (fun h => hb h.symm)]
      omega

/-- Summing each distinct element's multiplicity recovers the length. -/
theorem sum_count_dedup {α : Type} [DecidableEq α] (l : List α) :
    (l.dedup.map (fun a => l.count a)).sum = l.length := by
  induction l with
  | nil => rfl
  | cons a t ih =>
    by_cases h : a ∈ t
    · rw [List.dedup_cons_of_mem h]
      have hmap : t.dedup.map (fun x => (a :: t).count x)
          = t.dedup.map (fun x => t.count x + if a == x then 1 else 0) :=
        List.map_congr_left (fun x _ => List.count_cons x a t)
      rw [hmap, sum_map_add_nat, ih, sum_map_indicator_eq_count,
        List.count_dedup]
      simp [h]
    · rw [List.dedup_cons_of_not_mem h, List.map_cons, List.sum_cons]
      have h1 : (a :: t).count a = 1 := by
        rw [List.count_cons, List.count_eq_zero_of_not_mem h]
        simp
      have h2 : t.dedup.map (fun x => (a :: t).count x)
          = t.dedup.map (fun x => t.count x) := by
        refine List.map_congr_left ?_
        intro x hx
        rw [List.count_cons]
        have hxa : ¬ a = x := fun he => h (he ▸ List.mem_dedup.mp hx)
        simp [hxa]
      rw [h1, h2, ih, List.length_cons]
      omega

/-- The inner post-CDR loop of `scan_av_batch` emits, for a planned
original file `o`, exactly as many entries as `o` occurs among the
successful results' paths. -/
theorem inner_filter_count (rs : List Phase1Result) (o : String) :
    (rs.filter
      (fun r => r.file_path == o && r.status == "success")).length =
      ((successfulResults rs).map (fun r => r.file_path)).count o := by
  rw [List.count_eq_countP, List.countP_map, successfulResults,
    List.countP_filter, ← List.countP_eq_length_filter]
  rfl

/-- Length of a fan-out that pairs every planned item with every engine. -/
theorem length_flatMap_const_map {α β γ : Type} (l : List α) (m : List β)
    (g : α → β → γ) :
    (l.flatMap (fun fi => m.map (g fi))).length = l.length * m.length := by
  induction l with
  | nil => simp
  | cons a t ih =>
    simp only [List.flatMap_cons, List.length_append, List.length_map, ih,
      List.length_cons]
    ring

/-- Length of a fan-out that emits one head entry plus a per-item tail. -/
theorem length_flatMap_cons_map {α β : Type} (l : List α)
    (hd : α → β) (tl : α → List β) :
    (l.flatMap (fun o => hd o :: tl o)).length =
      l.length + (l.map (fun o => (tl o).length)).sum := by
  induction l with
  | nil => rfl
  | cons a t ih =>
    simp only [List.flatMap_cons, List.length_append, List.length_cons,
      List.map_cons, List.sum_cons, ih]
    omega

/-- The `files_to_scan` plan has one entry per distinct successful
original plus one per successful Phase-1 result. -/
theorem filesToScan_length (rs : List Phase1Result) :
    (filesToScan rs).length =
      (originalFiles rs).length + (successfulResults rs).length := by
  rw [filesToScan, length_flatMap_cons_map]
  congr 1
  have hmap : (originalFiles rs).map
      (fun o => ((rs.filter
        (fun r => r.file_path == o && r.status == "success")).map
          (fun r => ({ file_path := r.sanitized_blob_path
                       version := "post-cdr"
                       cdr_engine := some r.engine_name
                       original_file := some o } : ScanFileInfo))).length)
      = (originalFiles rs).map
        (fun o => ((successfulResults rs).map
          (fun r => r.file_path)).count o) := by
    refine List.map_congr_left ?_
    intro o _
    rw [List.length_map, inner_filter_count]
  rw [hmap, originalFiles, sum_count_dedup, List.length_map]

/-- C4: Phase 2 dispatches exactly `(U + S) · A` scan units, where `U` is
the number of distinct original paths with at least one successful
Phase-1 result, `S` is the total number of successful Phase-1 results
(one planned post-CDR file each), and `A` is the number of configured AV
engines. -/
theorem c4_phase2_fanout_count (rs : List Phase1Result) :
    (scanTasks rs).length =
      ((originalFiles rs).length + (successfulResults rs).length) *
        avEngineNames.length := by
  rw [scanTasks, length_flatMap_const_map, filesToScan_length]

/-! ## C5 -/

/-- Reading back a key just written. -/
theorem assocGet_set_self {β : Type} (l : List (String × β)) (k : String)
    (v : β) : assocGet (assocSet l k v) k = some v := by
  induction l with
  | nil => simp [assocGet, assocSet]
  | cons p t ih =>
    by_cases h : p.1 = k
    · simp [assocSet, assocGet, h]
    · simp only [assocSet]
      rw [if_neg (by simpa using h)]
      simpa [assocGet, h] using ih

/-- Writing one key does not disturb reads of another. -/
theorem assocGet_set_ne {β : Type} (l : List (String × β)) (k k' : String)
    (v : β) (h : ¬ k' = k) :
    assocGet (assocSet l k v) k' = assocGet l k' := by
  induction l with
  | nil =>
    simp [assocGet, assocSet]
    exact fun he => h he.symm
  | cons p t ih =>
    by_cases hp : p.1 = k
    · simp only [assocSet]
      rw [if_pos (by simpa using hp)]
      simp only [assocGet]
      rw [List.find?_cons_of_neg _ (by simpa using fun he : k = k' => h he.symm),
        List.find?_cons_of_neg _
          (by simpa using fun he : p.1 = k' => h (he.symm.trans hp))]
    · simp only [assocSet]
      rw [if_neg (by simpa using hp)]
      by_cases hp' : p.1 = k'
      · simp [assocGet, hp']
      · simp only [assocGet] at ih ⊢
        rw [List.find?_cons_of_neg _ (by simpa using hp'),
          List.find?_cons_of_neg _ (by simpa using hp')]
        exact ih

/-- Overwriting a key twice keeps only the last value. -/
theorem assocSet_set {β : Type} (l : List (String × β)) (k : String)
    (v w : β) : assocSet (assocSet l k v) k w = assocSet l k w := by
  induction l with
  | nil => simp [assocSet]
  | cons p t ih =>
    by_cases h : p.1 = k
    · simp [assocSet, h]
    · simp only [assocSet]
      rw [if_neg (by simpa using h), if_neg (by simpa using h)]
      simp only [assocSet]
      rw [if_neg (by simpa using h)]
      rw [ih]

/-- Deleting a key that was just overwritten deletes the original too. -/
theorem assocErase_set {β : Type} (l : List (String × β)) (k : String)
    (v : β) : assocErase (assocSet l k v) k = assocErase l k := by
  induction l with
  | nil => simp [assocSet, assocErase]
  | cons p t ih =>
    by_cases h : p.1 = k
    · simp [assocSet, assocErase, h]
    · simp only [assocSet]
      rw [if_neg (by simpa using h)]
      simp only [assocErase, List.filter_cons]
      rw [if_pos (by simpa using h), if_pos (by simpa using h)]
      simpa [assocErase] using ih

/-- A deleted key reads back as absent. -/
theorem assocGet_erase_self {β : Type} (l : List (String × β))
    (k : String) : assocGet (assocErase l k) k = none := by
  induction l with
  | nil => simp [assocGet, assocErase]
  | cons p t ih =>
    by_cases h : p.1 = k
    · simpa [assocErase, List.filter_cons, h] using ih
    · simp only [assocErase, List.filter_cons] at ih ⊢
      rw [if_pos (by simpa using h)]
      simpa [assocGet, h] using ih

/-- C5: `release_vm` on a tracked VM follows the three-branch policy in
order.  (1) At `use_count ≥ max_vm_uses` the VM is recycled: the backend
deletes it and provisions a replacement under a fresh name with
`use_count = 0`, the tracking entry is swapped, and the replacement is
re-enqueued — so when the label's queue was empty, the next `acquire_vm`
hands out exactly the replacement with `use_count = 1`.  (2) Otherwise
with `clean` requested the VM is marked `cleaning`, the cleanup script
runs, and the VM returns to the queue as `available` — while a cleanup
failure recycles it instead.  (3) Otherwise it is re-enqueued directly
with no backend call. -/
theorem c5_release_policy (cfg : PoolConfig) (s : PoolState)
    (vm_name : String) (info : VMInfo) (clean cleanupOk : Bool)
    (now tAcq : Nat)
    (htrack : assocGet s.all_vms vm_name = some info)
    (hname : info.vm_name = vm_name)
    (hfresh : ¬ newVMName info.edr_solution now = vm_name) :
    (cfg.max_vm_uses ≤ info.use_count →
      release_vm cfg s vm_name clean cleanupOk now = recycleVM cfg s info now
      ∧ (recycleVM cfg s info now).events = s.events ++
          [PoolEvent.deleteVM vm_name,
           PoolEvent.provisionVM (newVMName info.edr_solution now)
             info.edr_solution]
      ∧ assocGet (recycleVM cfg s info now).all_vms vm_name = none
      ∧ assocGet (recycleVM cfg s info now).all_vms
          (newVMName info.edr_solution now) =
          some (provisionVM cfg (newVMName info.edr_solution now)
            info.edr_solution)
      ∧ (provisionVM cfg (newVMName info.edr_solution now)
          info.edr_solution).use_count = 0
      ∧ assocGet (recycleVM cfg s info now).queues info.edr_solution =
          some ((assocGet s.queues info.edr_solution).getD [] ++
            [newVMName info.edr_solution now]))
    ∧ (cfg.max_vm_uses ≤ info.use_count →
        (assocGet s.queues info.edr_solution).getD [] = [] →
        (acquire_vm (release_vm cfg s vm_name clean cleanupOk now)
            info.edr_solution tAcq).toOption.map Prod.fst =
          some { provisionVM cfg (newVMName info.edr_solution now)
              info.edr_solution with
            status := "in_use"
            last_used_at := some tAcq
            use_count := 1 })
    ∧ (info.use_count < cfg.max_vm_uses → clean = true → cleanupOk = true →
        release_vm cfg s vm_name clean cleanupOk now =
          { all_vms := assocSet s.all_vms vm_name
              { info with status := "available" }
            queues := enqueueVM s.queues info.edr_solution vm_name
            events := s.events ++ [PoolEvent.runCleanupScript vm_name] })
    ∧ (info.use_count < cfg.max_vm_uses → clean = true →
        cleanupOk = false →
        release_vm cfg s vm_name clean cleanupOk now =
          { all_vms := assocSet (assocErase s.all_vms vm_name)
              (newVMName info.edr_solution now)
              (provisionVM cfg (newVMName info.edr_solution now)
                info.edr_solution)
            queues := enqueueVM s.queues info.edr_solution
              (newVMName info.edr_solution now)
            events := s.events ++ [PoolEvent.runCleanupScript vm_name,
              PoolEvent.deleteVM vm_name,
              PoolEvent.provisionVM (newVMName info.edr_solution now)
                info.edr_solution] })
    ∧ (info.use_count < cfg.max_vm_uses → clean = false →
        release_vm cfg s vm_name clean cleanupOk now =
          { all_vms := assocSet s.all_vms vm_name
              { info with status := "available" }
            queues := enqueueVM s.queues info.edr_solution vm_name
            events := s.events }) := by
  refine ⟨?_, ?_, ?_, ?_, ?_⟩
  · intro hmax
    have hrel : release_vm cfg s vm_name clean cleanupOk now =
        recycleVM cfg s info now := by
      simp [release_vm, htrack, hmax]
    refine ⟨hrel, by simp [recycleVM, hname], ?_, ?_, rfl, ?_⟩
    · simp only [recycleVM]
      rw [assocGet_set_ne _ _ _ _ (fun he => hfresh he.symm), hname,
        assocGet_erase_self]
    · simp only [recycleVM]
      exact assocGet_set_self _ _ _
    · simp only [recycleVM, enqueueVM]
      exact assocGet_set_self _ _ _
  · intro hmax hq
    have hrel : release_vm cfg s vm_name clean cleanupOk now =
        recycleVM cfg s info now := by
      simp [release_vm, htrack, hmax]
    rw [hrel]
    simp only [acquire_vm, recycleVM, enqueueVM]
    rw [assocGet_set_self, hq]
    simp only [List.nil_append, Option.getD_some]
    rw [assocGet_set_self]
    rfl
  · intro hlt hclean hok
    subst hclean
    subst hok
    have hnle : ¬ cfg.max_vm_uses ≤ info.use_count := Nat.not_le.mpr hlt
    simp only [release_vm, htrack, hnle, if_false, if_true,
      cleanAndReturnVM, ite_true, ite_false]
    simp [cleanAndReturnVM, assocSet_set, hname]
  · intro hlt hclean hok
    subst hclean
    subst hok
    have hnle : ¬ cfg.max_vm_uses ≤ info.use_count := Nat.not_le.mpr hlt
    simp only [release_vm, htrack, hnle, if_false, if_true,
      cleanAndReturnVM, ite_true, ite_false, recycleVM]
    simp [assocErase_set, hname]
  · intro hlt hclean
    subst hclean
    have hnle : ¬ cfg.max_vm_uses ≤ info.use_count := Nat.not_le.mpr hlt
    simp [release_vm, htrack, hnle]

/-- Witness for C5: a pool of one crowdstrike VM at its use limit
(`max_vm_uses = 3`, `use_count = 3`) is recycled on release, and the next
acquire hands out the freshly provisioned replacement with
`use_count = 1`. -/
theorem c5_witness :
    release_vm ⟨3, "rg"⟩
      ⟨[("vm-a", ⟨"vm-a", "rg", "crowdstrike", "in_use", 3, some 41⟩)],
        [("crowdstrike", [])], []⟩ "vm-a" true true 42 =
      recycleVM ⟨3, "rg"⟩
        ⟨[("vm-a", ⟨"vm-a", "rg", "crowdstrike", "in_use", 3, some 41⟩)],
          [("crowdstrike", [])], []⟩
        ⟨"vm-a", "rg", "crowdstrike", "in_use", 3, some 41⟩ 42
    ∧ (acquire_vm
        (release_vm ⟨3, "rg"⟩
          ⟨[("vm-a", ⟨"vm-a", "rg", "crowdstrike", "in_use", 3, some 41⟩)],
            [("crowdstrike", [])], []⟩ "vm-a" true true 42)
        "crowdstrike" 50).toOption.map Prod.fst =
      some { provisionVM ⟨3, "rg"⟩ (newVMName "crowdstrike" 42)
          "crowdstrike" with
        status := "in_use"
        last_used_at := some 50
        use_count := 1 } := by
  have h := c5_release_policy ⟨3, "rg"⟩
    ⟨[("vm-a", ⟨"vm-a", "rg", "crowdstrike", "in_use", 3, some 41⟩)],
      [("crowdstrike", [])], []⟩ "vm-a"
    ⟨"vm-a", "rg", "crowdstrike", "in_use", 3, some 41⟩ true true 42 50
    rfl rfl (by decide)
  exact ⟨(h.1 (by decide)).1, h.2.1 (by decide) rfl⟩

end EDRProof
